import Mathlib

/-!
A shallow embedding of `cmd/kapacitor/main.go`, the command-line control
client of the kapacitor repository.

Modelling conventions:

* Each subcommand handler `doX` in the Go source becomes a pure Lean
  function.  Effects are made explicit:
  - the HTTP transport (`http.Post`, `http.Get`, `http.Client.Do`) becomes a
    parameter `transport : Request → Except String String` returning either a
    transport error or the raw response body;
  - `json.Decoder.Decode` into a handler-local response struct becomes a
    parameter `dec : String → Option α`; the Go code discards the decode
    error and keeps the zero-valued struct, which is modelled by
    `(dec body).getD {}` (all response structs have zero defaults);
  - `os.Open` in `doDefine` becomes `openFile : String → Except String String`
    yielding the file contents that are streamed as the request body;
  - writes to standard output are collected in the `stdout` field of the
    result; `os.Exit(2)` on a usage error becomes the `Outcome.usageExit 2`
    result (stderr usage text is not modelled).
* A handler returns a `RunResult`: its outcome, the list of HTTP requests it
  issued, in order, and everything it wrote to standard output.
* `url.Values` is modelled as an insertion-ordered `List (String × String)`;
  `valuesEncode` mirrors Go's `url.Values.Encode` (keys sorted, each value
  percent-escaped for a query component, pairs joined with `&`).
* Go `fmt` width specifiers (`%-30s` etc.) count runes, modelled by
  `padRight`/`padLeft` over `String.length`.
-/

/-- One byte of the UTF-8 encoding of a character, as `Nat`s below 256.
Go's `url.QueryEscape` operates on the UTF-8 bytes of the string. -/
def charUtf8 (c : Char) : List Nat :=
  let n := c.toNat
  if n < 0x80 then [n]
  else if n < 0x800 then [0xC0 + n / 0x40, 0x80 + n % 0x40]
  else if n < 0x10000 then
    [0xE0 + n / 0x1000, 0x80 + (n / 0x40) % 0x40, 0x80 + n % 0x40]
  else
    [0xF0 + n / 0x40000, 0x80 + (n / 0x1000) % 0x40,
     0x80 + (n / 0x40) % 0x40, 0x80 + n % 0x40]

/-- Uppercase hexadecimal digit, as used by Go's percent-escaping. -/
def hexDigit (n : Nat) : Char :=
  (['0', '1', '2', '3', '4', '5', '6', '7',
    '8', '9', 'A', 'B', 'C', 'D', 'E', 'F']).getD n '0'

/-- Escape one byte the way Go's `url.QueryEscape` does for a query
component: ASCII alphanumerics and `-`, `_`, `.`, `~` pass through, a space
becomes `+`, every other byte becomes `%XX`. -/
def escapeByte (b : Nat) : String :=
  if (0x41 ≤ b ∧ b ≤ 0x5A) ∨ (0x61 ≤ b ∧ b ≤ 0x7A) ∨ (0x30 ≤ b ∧ b ≤ 0x39)
      ∨ b = 0x2D ∨ b = 0x5F ∨ b = 0x2E ∨ b = 0x7E then
    String.singleton (Char.ofNat b)
  else if b = 0x20 then "+"
  else "%" ++ String.singleton (hexDigit (b / 16)) ++ String.singleton (hexDigit (b % 16))

/-- Go's `url.QueryEscape`: escape every UTF-8 byte of the string. -/
def queryEscape (s : String) : String :=
  String.join (((s.data.map charUtf8).flatten).map escapeByte)

/-- Insert a string into an ascending list, keeping it sorted (stable). -/
def insertSorted (s : String) : List String → List String
  | [] => [s]
  | t :: ts => if t < s then t :: insertSorted s ts else s :: t :: ts

/-- Sort a list of strings ascending, as Go's `sort.Strings` orders the keys
inside `url.Values.Encode`. -/
def sortStrings : List String → List String
  | [] => []
  | s :: ss => insertSorted s (sortStrings ss)

/-- Go's `url.Values.Encode`: keys sorted, each `key=value` pair
percent-escaped, all pairs joined with `&`; values of one key keep their
insertion order. -/
def valuesEncode (v : List (String × String)) : String :=
  let keys := sortStrings ((v.map Prod.fst).eraseDups)
  String.intercalate "&"
    ((keys.map fun k =>
      ((v.filter fun p => p.fst == k).map fun p =>
        queryEscape k ++ "=" ++ queryEscape p.snd)).flatten)

/-- HTTP method of an outbound request. -/
inductive Method where
  | get
  | post
  | delete
deriving DecidableEq

/-- One outbound HTTP request as the client assembles it: the method, the
full URL string handed to the transport, the `url.Values` used to build that
URL, the content type, and the optional request body. -/
structure Request where
  method : Method
  url : String
  params : List (String × String)
  contentType : String := ""
  body : Option String := none
deriving DecidableEq

/-- How a handler invocation ended: normal `nil` return, a returned error
(the process would exit 3), or a direct `os.Exit` on a usage error. -/
inductive Outcome where
  | ok
  | fail (msg : String)
  | usageExit (code : Nat)
deriving DecidableEq

/-- The observable behaviour of one handler invocation. -/
structure RunResult where
  outcome : Outcome
  requests : List Request
  stdout : String
deriving DecidableEq

/-- Go's `strconv.FormatInt(int64(n), 10)`. -/
def formatInt (i : Int) : String := toString i

-- Record subcommand -----------------------------------------------------

/-- The parsed `record` flag set.  `rdurStr` holds the `String()` rendering
of the `duration` flag (a `time.Duration`, default `5m0s`). -/
structure RecordFlags where
  raddr : String := ""
  rname : String := ""
  rstart : String := ""
  rnum : Int := 1
  rquery : String := ""
  rtype : String := ""
  rdurStr : String := "5m0s"

/-- The response struct of `doRecord`; Go's zero value has both fields
empty. -/
structure RecordResp where
  recordingID : String := ""
  error : String := ""
deriving DecidableEq

/-- The `url.Values` `doRecord` builds: `type=<mode>` first, then the
mode-specific parameters of the `switch args[0]`; `none` is the `default`
branch (unknown record type). -/
def recordValues (fl : RecordFlags) (mode : String) : Option (List (String × String)) :=
  if mode = "stream" then
    some [("type", mode), ("duration", fl.rdurStr)]
  else if mode = "batch" then
    some [("type", mode), ("name", fl.rname), ("start", fl.rstart),
          ("num", formatInt fl.rnum), ("addr", fl.raddr)]
  else if mode = "query" then
    some [("type", mode), ("qtype", fl.rtype), ("addr", fl.raddr)]
  else
    none

/-- The POST request `doRecord` issues: `http.Post("http://localhost:9092/record?"+v.Encode(), "application/octetstream", nil)`. -/
def recordReq (v : List (String × String)) : Request :=
  { method := .post, url := "http://localhost:9092/record?" ++ valuesEncode v,
    params := v, contentType := "application/octetstream" }

/-- `doRecord`.  `mode` is `args[0]`; the dispatcher guarantees exactly one
positional argument.  On success the recording ID is printed with
`fmt.Println`. -/
def doRecord (fl : RecordFlags) (mode : String)
    (transport : Request → Except String String)
    (dec : String → Option RecordResp) : RunResult :=
  match recordValues fl mode with
  | none =>
    { outcome := .fail ("Unknown record type \"" ++ mode ++ "\", expected 'stream' or 'query'"),
      requests := [], stdout := "" }
  | some v =>
    let req := recordReq v
    match transport req with
    | .error e => { outcome := .fail e, requests := [req], stdout := "" }
    | .ok body =>
      let rp := (dec body).getD {}
      if rp.error ≠ "" then
        { outcome := .fail rp.error, requests := [req], stdout := "" }
      else
        { outcome := .ok, requests := [req], stdout := rp.recordingID ++ "\n" }

-- Define subcommand -----------------------------------------------------

/-- The parsed `define` flag set. -/
structure DefineFlags where
  dname : String := ""
  dtick : String := ""
  dtype : String := ""

/-- The handler-local `resp` struct with only an `Error` field; Go's zero
value has it empty. -/
structure ErrResp where
  error : String := ""
deriving DecidableEq

/-- The POST request `doDefine` issues; the TICK script contents travel as
the request body. -/
def defineReq (fl : DefineFlags) (contents : String) : Request :=
  let v := [("name", fl.dname), ("type", fl.dtype)]
  { method := .post, url := "http://localhost:9092/task?" ++ valuesEncode v,
    params := v, contentType := "application/octetstream", body := some contents }

/-- `doDefine`.  The Go condition `*dtick == "" || *dname == "" || *dtick == ""`
tests `dtick` twice and never tests `dtype`; that is kept as written. -/
def doDefine (fl : DefineFlags)
    (openFile : String → Except String String)
    (transport : Request → Except String String)
    (dec : String → Option ErrResp) : RunResult :=
  if fl.dtick = "" ∨ fl.dname = "" ∨ fl.dtick = "" then
    { outcome := .usageExit 2, requests := [], stdout := "" }
  else
    match openFile fl.dtick with
    | .error e => { outcome := .fail e, requests := [], stdout := "" }
    | .ok contents =>
      let req := defineReq fl contents
      match transport req with
      | .error e => { outcome := .fail e, requests := [req], stdout := "" }
      | .ok body =>
        let rp := (dec body).getD {}
        if rp.error ≠ "" then
          { outcome := .fail rp.error, requests := [req], stdout := "" }
        else
          { outcome := .ok, requests := [req], stdout := "" }

-- Enable subcommand -----------------------------------------------------

/-- The POST request `doEnable` issues for one task name:
`http.Post("http://localhost:9092/enable?"+v.Encode(), "application/octetstream", nil)`. -/
def enableReq (name : String) : Request :=
  let v := [("name", name)]
  { method := .post, url := "http://localhost:9092/enable?" ++ valuesEncode v,
    params := v, contentType := "application/octetstream" }

/-- The `for _, name := range args` loop of `doEnable`: each name is posted
in turn; a transport error or a non-empty envelope `Error` stops the loop
with that error; otherwise the loop continues with the remaining names. -/
def doEnableLoop (transport : Request → Except String String)
    (dec : String → Option ErrResp) : List String → RunResult
  | [] => { outcome := .ok, requests := [], stdout := "" }
  | name :: rest =>
    let req := enableReq name
    match transport req with
    | .error e => { outcome := .fail e, requests := [req], stdout := "" }
    | .ok body =>
      let rp := (dec body).getD {}
      if rp.error ≠ "" then
        { outcome := .fail rp.error, requests := [req], stdout := "" }
      else
        let res := doEnableLoop transport dec rest
        { res with requests := req :: res.requests }

/-- `doEnable`: usage check, then the per-name loop. -/
def doEnable (args : List String) (transport : Request → Except String String)
    (dec : String → Option ErrResp) : RunResult :=
  if args.length < 1 then { outcome := .usageExit 2, requests := [], stdout := "" }
  else doEnableLoop transport dec args

-- Disable subcommand ----------------------------------------------------

/-- The POST request `doDisable` issues for one task name. -/
def disableReq (name : String) : Request :=
  let v := [("name", name)]
  { method := .post, url := "http://localhost:9092/disable?" ++ valuesEncode v,
    params := v, contentType := "application/octetstream" }

/-- The `for _, name := range args` loop of `doDisable`.  The Go loop body
ends in `return nil` (main.go line 432), so the success path returns after
the first iteration; the remaining names are never reached.  That early
return is kept as written: the success branch below does not recurse. -/
def doDisableLoop (transport : Request → Except String String)
    (dec : String → Option ErrResp) : List String → RunResult
  | [] => { outcome := .ok, requests := [], stdout := "" }
  | name :: _ =>
    let req := disableReq name
    match transport req with
    | .error e => { outcome := .fail e, requests := [req], stdout := "" }
    | .ok body =>
      let rp := (dec body).getD {}
      if rp.error ≠ "" then
        { outcome := .fail rp.error, requests := [req], stdout := "" }
      else
        { outcome := .ok, requests := [req], stdout := "" }

/-- `doDisable`: usage check, then the per-name loop with its early
return. -/
def doDisable (args : List String) (transport : Request → Except String String)
    (dec : String → Option ErrResp) : RunResult :=
  if args.length < 1 then { outcome := .usageExit 2, requests := [], stdout := "" }
  else doDisableLoop transport dec args

-- Delete subcommand -----------------------------------------------------

/-- The DELETE request `doDelete` issues for one identifier.  The Go code
builds the URL as `baseURL+v.Encode()` (main.go line 559) with no `?`
between path and query, and that concatenation is kept as written. -/
def deleteReq (baseURL paramName arg : String) : Request :=
  let v := [(paramName, arg)]
  { method := .delete, url := baseURL ++ valuesEncode v, params := v }

/-- The `for _, arg := range args[1:]` loop of `doDelete`; `http.NewRequest`
plus `client.Do` is one transport call in this model. -/
def doDeleteLoop (baseURL paramName : String)
    (transport : Request → Except String String)
    (dec : String → Option ErrResp) : List String → RunResult
  | [] => { outcome := .ok, requests := [], stdout := "" }
  | arg :: rest =>
    let req := deleteReq baseURL paramName arg
    match transport req with
    | .error e => { outcome := .fail e, requests := [req], stdout := "" }
    | .ok body =>
      let rp := (dec body).getD {}
      if rp.error ≠ "" then
        { outcome := .fail rp.error, requests := [req], stdout := "" }
      else
        let res := doDeleteLoop baseURL paramName transport dec rest
        { res with requests := req :: res.requests }

/-- `doDelete`.  The `switch args[0]` selecting `baseURL` and `paramName`
has no `default` branch, so an unknown kind leaves both at the Go zero value
`""` and the loop still runs. -/
def doDelete (args : List String) (transport : Request → Except String String)
    (dec : String → Option ErrResp) : RunResult :=
  if args.length < 2 then { outcome := .usageExit 2, requests := [], stdout := "" }
  else
    let baseURL := if args.headD "" = "task" then "http://localhost:9092/task"
      else if args.headD "" = "recording" then "http://localhost:9092/recording"
      else ""
    let paramName := if args.headD "" = "task" then "name"
      else if args.headD "" = "recording" then "rid"
      else ""
    doDeleteLoop baseURL paramName transport dec args.tail

-- List subcommand -------------------------------------------------------

/-- Pad a string on the right with spaces to the given rune width, as Go's
`fmt` does for `%-Ns`; a longer string is left untouched. -/
def padRight (w : Nat) (s : String) : String :=
  s ++ String.mk (List.replicate (w - s.length) ' ')

/-- Pad a string on the left with spaces to the given rune width, as Go's
`fmt` does for `%Ns`. -/
def padLeft (w : Nat) (s : String) : String :=
  String.mk (List.replicate (w - s.length) ' ') ++ s

/-- Go's `%v` rendering of a `bool`. -/
def boolStr (b : Bool) : String := if b then "true" else "false"

/-- Models `fmt`'s `%.2f` applied to `float64(size)/1024.0/1024.0`: the
dyadic rational `size/2^20` rounded to two decimals, ties to even, which is
the exact float behaviour for `|size| < 2^53` (the division by `2^20` is
exact in `float64` there). -/
def formatMB (size : Int) : String :=
  let num := size * 100
  let den : Int := 1048576
  let q := Int.ediv num den
  let r := Int.emod num den
  let scaled :=
    if 2 * r < den then q
    else if den < 2 * r then q + 1
    else if Int.emod q 2 = 0 then q else q + 1
  let sgn := if scaled < 0 then "-" else ""
  let a := scaled.natAbs
  sgn ++ toString (a / 100) ++ "." ++ (if a % 100 < 10 then "0" else "") ++ toString (a % 100)

/-- One task entry of the `list tasks` response.  `type` holds the `%v`
rendering of the library's `kapacitor.TaskType`. -/
structure TaskInfo where
  name : String
  type : String
  enabled : Bool
deriving DecidableEq

/-- The handler-local response struct of the `tasks` branch of `doList`;
Go's zero value has an empty error and a nil slice. -/
structure TasksResp where
  error : String := ""
  tasks : List TaskInfo := []
deriving DecidableEq

/-- One recording entry of the `list recordings` response. -/
structure RecordingInfo where
  id : String
  type : String
  size : Int
deriving DecidableEq

/-- The handler-local response struct of the `recordings` branch of
`doList`. -/
structure RecordingsResp where
  error : String := ""
  recordings : List RecordingInfo := []
deriving DecidableEq

/-- The header line of `list tasks`: `fmt.Fprintf(os.Stdout, "%-30s%-10v%-10v\n", "Name", "Type", "Enabled")`. -/
def tasksHeader : String :=
  padRight 30 "Name" ++ padRight 10 "Type" ++ padRight 10 "Enabled" ++ "\n"

/-- One data row of `list tasks`, printed with the same format string as the
header. -/
def taskRow (t : TaskInfo) : String :=
  padRight 30 t.name ++ padRight 10 t.type ++ padRight 10 (boolStr t.enabled) ++ "\n"

/-- The header line of `list recordings`: `fmt.Fprintf(os.Stdout, "%-40s%-10s%15s\n", "ID", "Type", "Size (MB)")`. -/
def recordingsHeader : String :=
  padRight 40 "ID" ++ padRight 10 "Type" ++ padLeft 15 "Size (MB)" ++ "\n"

/-- One data row of `list recordings`, printed with
`"%-40s%-10v%15.2f\n"`. -/
def recordingRow (r : RecordingInfo) : String :=
  padRight 40 r.id ++ padRight 10 r.type ++ padLeft 15 (formatMB r.size) ++ "\n"

/-- The GET request of the `tasks` branch: the filter names joined with
commas into a single `tasks` parameter. -/
def tasksReq (rest : List String) : Request :=
  let v := [("tasks", String.intercalate "," rest)]
  { method := .get, url := "http://localhost:9092/tasks?" ++ valuesEncode v, params := v }

/-- The GET request of the `recordings` branch: the filter IDs joined with
commas into a single `rids` parameter. -/
def recordingsReq (rest : List String) : Request :=
  let v := [("rids", String.intercalate "," rest)]
  { method := .get, url := "http://localhost:9092/recordings?" ++ valuesEncode v, params := v }

/-- `doList`.  The `switch args[0]` has no `default` branch: any other kind
falls through to the final `return nil` with no request and no output. -/
def doList (args : List String) (transport : Request → Except String String)
    (decT : String → Option TasksResp)
    (decR : String → Option RecordingsResp) : RunResult :=
  if args.length = 0 then { outcome := .usageExit 2, requests := [], stdout := "" }
  else if args.headD "" = "tasks" then
    let req := tasksReq args.tail
    match transport req with
    | .error e => { outcome := .fail e, requests := [req], stdout := "" }
    | .ok body =>
      let rp := (decT body).getD {}
      if rp.error ≠ "" then
        { outcome := .fail rp.error, requests := [req], stdout := "" }
      else
        { outcome := .ok, requests := [req],
          stdout := tasksHeader ++ String.join (rp.tasks.map taskRow) }
  else if args.headD "" = "recordings" then
    let req := recordingsReq args.tail
    match transport req with
    | .error e => { outcome := .fail e, requests := [req], stdout := "" }
    | .ok body =>
      let rp := (decR body).getD {}
      if rp.error ≠ "" then
        { outcome := .fail rp.error, requests := [req], stdout := "" }
      else
        { outcome := .ok, requests := [req],
          stdout := recordingsHeader ++ String.join (rp.recordings.map recordingRow) }
  else
    { outcome := .ok, requests := [], stdout := "" }

-- Replay subcommand -----------------------------------------------------

/-- The parsed `replay` flag set. -/
structure ReplayFlags where
  rtname : String := ""
  rid : String := ""
  rfast : Bool := false

/-- The POST request `doReplay` issues: `name` and `id` always,
`clock=fast` only when the `fast` flag is set. -/
def replayReq (fl : ReplayFlags) : Request :=
  let v := [("name", fl.rtname), ("id", fl.rid)]
    ++ (if fl.rfast then [("clock", "fast")] else [])
  { method := .post, url := "http://localhost:9092/replay?" ++ valuesEncode v,
    params := v, contentType := "application/octetstream" }

/-- `doReplay`: POST to the replay endpoint, decode the envelope, fail on a
non-empty `Error`.  No output on success. -/
def doReplay (fl : ReplayFlags) (transport : Request → Except String String)
    (dec : String → Option ErrResp) : RunResult :=
  let req := replayReq fl
  match transport req with
  | .error e => { outcome := .fail e, requests := [req], stdout := "" }
  | .ok body =>
    let rp := (dec body).getD {}
    if rp.error ≠ "" then
      { outcome := .fail rp.error, requests := [req], stdout := "" }
    else
      { outcome := .ok, requests := [req], stdout := "" }

-- Level subcommand ------------------------------------------------------

/-- The POST request `doLevel` issues for one log-level token, with a
plain-text content type. -/
def levelReq (token : String) : Request :=
  let v := [("level", token)]
  { method := .post, url := "http://localhost:9092/loglevel?" ++ valuesEncode v,
    params := v, contentType := "text/plain" }

/-- `doLevel`: usage check, then POST `level=<args[0]>` and decode the
envelope.  The token itself is not validated locally. -/
def doLevel (args : List String) (transport : Request → Except String String)
    (dec : String → Option ErrResp) : RunResult :=
  if args.length = 0 then { outcome := .usageExit 2, requests := [], stdout := "" }
  else
    let req := levelReq (args.headD "")
    match transport req with
    | .error e => { outcome := .fail e, requests := [req], stdout := "" }
    | .ok body =>
      let rp := (dec body).getD {}
      if rp.error ≠ "" then
        { outcome := .fail rp.error, requests := [req], stdout := "" }
      else
        { outcome := .ok, requests := [req], stdout := "" }

-- Concrete inputs used in claim evaluations -----------------------------

/-- The `record query` flag set of a representative invocation: an address,
a raw query string and a result-shape type are all supplied. -/
def c3Flags : RecordFlags :=
  { raddr := "http://localhost:8086", rquery := "select value from cpu_idle",
    rtype := "streamer" }

-- Claim theorems --------------------------------------------------------

/-- C1: the claim says `disable` with several names issues one POST per
name, in order, processing every name when nothing fails.  The code does
not: the `return nil` inside the loop body ends the handler after the first
name.  Evaluated at the failing input `disable a b` with a service that
answers success to every request, only the request for `a` is ever issued
and the handler still returns success. -/
theorem C1_disable_processes_only_first_name :
    doDisable ["a", "b"] (fun _ => Except.ok "") (fun _ => none) =
      { outcome := .ok, requests := [disableReq "a"], stdout := "" } := by decide

/-- C2: the claim says each `delete task` request is a DELETE on path
`/task` with the identifier under `name` in the query string, separated
from the path.  The code builds `baseURL+v.Encode()` with no `?`, so for
`delete task a` the full URL is `http://localhost:9092/taskname=a`: the
encoded parameter is fused into the path and no query string exists. -/
theorem C2_delete_url_lacks_query_separator :
    (doDelete ["task", "a"] (fun _ => Except.ok "") (fun _ => none)).requests.map
        Request.url =
      ["http://localhost:9092/taskname=a"] := by decide

/-- C3: the claim says the `record query` request carries the raw query
string from the `query` flag.  The code never adds it: evaluated at a
`record query` invocation whose `query` flag is set, the issued request
carries exactly `type`, `qtype` and `addr`, and no parameter at all is
named `query`. -/
theorem C3_record_query_omits_query_parameter :
    (doRecord c3Flags "query" (fun _ => Except.ok "") (fun _ => none)).requests.map
        Request.params =
      [[("type", "query"), ("qtype", "streamer"), ("addr", "http://localhost:8086")]] ∧
    (((doRecord c3Flags "query" (fun _ => Except.ok "") (fun _ => none)).requests.map
        Request.params).flatten.all fun p => p.fst != "query") = true := by decide

/-- A decoder that fails exactly where another yields the given zero value
produces the same zero-defaulted decode result on every body. -/
theorem getD_eq_of_agree {α : Type} (z : α) (d d' : String → Option α)
    (h : ∀ s, (d s = none ∧ d' s = some z) ∨ d s = d' s) :
    ∀ s, (d s).getD z = (d' s).getD z := by
  intro s
  rcases h s with ⟨h1, h2⟩ | he
  · rw [h1, h2]; rfl
  · rw [he]

/-- `doRecord` only looks at the zero-defaulted decode result. -/
theorem doRecord_decode_invariant (fl : RecordFlags) (mode : String)
    (transport : Request → Except String String)
    (dec dec' : String → Option RecordResp)
    (g : ∀ s, (dec s).getD ({} : RecordResp) = (dec' s).getD {}) :
    doRecord fl mode transport dec = doRecord fl mode transport dec' := by
  cases hv : recordValues fl mode with
  | none => simp [doRecord, hv]
  | some v =>
    simp only [doRecord, hv]
    cases h : transport (recordReq v) with
    | error e => rfl
    | ok body => simp only [g]

/-- `doReplay` only looks at the zero-defaulted decode result. -/
theorem doReplay_decode_invariant (fl : ReplayFlags)
    (transport : Request → Except String String)
    (dec dec' : String → Option ErrResp)
    (g : ∀ s, (dec s).getD ({} : ErrResp) = (dec' s).getD {}) :
    doReplay fl transport dec = doReplay fl transport dec' := by
  simp only [doReplay]
  cases h : transport (replayReq fl) with
  | error e => rfl
  | ok body => simp only [g]

/-- The `doEnable` loop only looks at the zero-defaulted decode results. -/
theorem doEnableLoop_decode_invariant
    (transport : Request → Except String String)
    (dec dec' : String → Option ErrResp)
    (g : ∀ s, (dec s).getD ({} : ErrResp) = (dec' s).getD {}) :
    ∀ names, doEnableLoop transport dec names = doEnableLoop transport dec' names := by
  intro names
  induction names with
  | nil => rfl
  | cons n rest ih =>
    simp only [doEnableLoop]
    cases h : transport (enableReq n) with
    | error e => rfl
    | ok body => simp only [g, ih]

/-- The `doDisable` loop only looks at the zero-defaulted decode result of
its single processed name. -/
theorem doDisableLoop_decode_invariant
    (transport : Request → Except String String)
    (dec dec' : String → Option ErrResp)
    (g : ∀ s, (dec s).getD ({} : ErrResp) = (dec' s).getD {}) :
    ∀ names, doDisableLoop transport dec names = doDisableLoop transport dec' names := by
  intro names
  cases names with
  | nil => rfl
  | cons n rest =>
    simp only [doDisableLoop]
    cases h : transport (disableReq n) with
    | error e => rfl
    | ok body => simp only [g]

/-- The `doDelete` loop only looks at the zero-defaulted decode results. -/
theorem doDeleteLoop_decode_invariant (baseURL paramName : String)
    (transport : Request → Except String String)
    (dec dec' : String → Option ErrResp)
    (g : ∀ s, (dec s).getD ({} : ErrResp) = (dec' s).getD {}) :
    ∀ ids, doDeleteLoop baseURL paramName transport dec ids =
      doDeleteLoop baseURL paramName transport dec' ids := by
  intro ids
  induction ids with
  | nil => rfl
  | cons x rest ih =>
    simp only [doDeleteLoop]
    cases h : transport (deleteReq baseURL paramName x) with
    | error e => rfl
    | ok body => simp only [g, ih]

/-- `doDelete` only looks at the zero-defaulted decode results. -/
theorem doDelete_decode_invariant (args : List String)
    (transport : Request → Except String String)
    (dec dec' : String → Option ErrResp)
    (g : ∀ s, (dec s).getD ({} : ErrResp) = (dec' s).getD {}) :
    doDelete args transport dec = doDelete args transport dec' := by
  unfold doDelete
  split
  · rfl
  · simp only []
    exact doDeleteLoop_decode_invariant _ _ transport dec dec' g args.tail

/-- `doList` only looks at the zero-defaulted decode results of either
branch. -/
theorem doList_decode_invariant (args : List String)
    (transport : Request → Except String String)
    (decT decT' : String → Option TasksResp)
    (decR decR' : String → Option RecordingsResp)
    (gT : ∀ s, (decT s).getD ({} : TasksResp) = (decT' s).getD {})
    (gR : ∀ s, (decR s).getD ({} : RecordingsResp) = (decR' s).getD {}) :
    doList args transport decT decR = doList args transport decT' decR' := by
  unfold doList
  split
  · rfl
  · split
    · simp only []
      cases h : transport (tasksReq args.tail) with
      | error e => rfl
      | ok body => simp only [gT]
    · split
      · simp only []
        cases h : transport (recordingsReq args.tail) with
        | error e => rfl
        | ok body => simp only [gR]
      · rfl

/-- `doLevel` only looks at the zero-defaulted decode result. -/
theorem doLevel_decode_invariant (args : List String)
    (transport : Request → Except String String)
    (dec dec' : String → Option ErrResp)
    (g : ∀ s, (dec s).getD ({} : ErrResp) = (dec' s).getD {}) :
    doLevel args transport dec = doLevel args transport dec' := by
  unfold doLevel
  split
  · rfl
  · simp only []
    cases h : transport (levelReq (args.headD "")) with
    | error e => rfl
    | ok body => simp only [g]

/-- C4: for every subcommand, a response body on which the JSON decode
fails is indistinguishable from one that genuinely decodes to the zero
envelope, so the decode failure is never surfaced.  Each of the eight
request-issuing handlers (`doRecord`, `doDefine`, `doReplay`, `doEnable`,
`doDisable`, `doDelete`, `doList`, `doLevel`) behaves identically under a
decoder that fails on every body it does not share with a decoder yielding
the zero-valued envelope there; `version` and `help` issue no request and
decode nothing. -/
theorem C4_decode_failure_behaves_as_empty_success
    (fl : RecordFlags) (mode : String) (dfl : DefineFlags) (rpfl : ReplayFlags)
    (enableNames disableNames deleteArgs listArgs levelArgs : List String)
    (openFile : String → Except String String)
    (transport : Request → Except String String)
    (decR decR' : String → Option RecordResp)
    (decE decE' : String → Option ErrResp)
    (decT decT' : String → Option TasksResp)
    (decRec decRec' : String → Option RecordingsResp)
    (hR : ∀ s, (decR s = none ∧ decR' s = some {}) ∨ decR s = decR' s)
    (hE : ∀ s, (decE s = none ∧ decE' s = some {}) ∨ decE s = decE' s)
    (hT : ∀ s, (decT s = none ∧ decT' s = some {}) ∨ decT s = decT' s)
    (hRec : ∀ s, (decRec s = none ∧ decRec' s = some {}) ∨ decRec s = decRec' s) :
    doRecord fl mode transport decR = doRecord fl mode transport decR' ∧
    doDefine dfl openFile transport decE = doDefine dfl openFile transport decE' ∧
    doReplay rpfl transport decE = doReplay rpfl transport decE' ∧
    doEnable enableNames transport decE = doEnable enableNames transport decE' ∧
    doDisable disableNames transport decE = doDisable disableNames transport decE' ∧
    doDelete deleteArgs transport decE = doDelete deleteArgs transport decE' ∧
    doList listArgs transport decT decRec = doList listArgs transport decT' decRec' ∧
    doLevel levelArgs transport decE = doLevel levelArgs transport decE' := by
  have gR := getD_eq_of_agree ({} : RecordResp) decR decR' hR
  have gE := getD_eq_of_agree ({} : ErrResp) decE decE' hE
  have gT := getD_eq_of_agree ({} : TasksResp) decT decT' hT
  have gRec := getD_eq_of_agree ({} : RecordingsResp) decRec decRec' hRec
  refine ⟨doRecord_decode_invariant fl mode transport decR decR' gR, ?_,
    doReplay_decode_invariant rpfl transport decE decE' gE, ?_, ?_,
    doDelete_decode_invariant deleteArgs transport decE decE' gE,
    doList_decode_invariant listArgs transport decT decT' decRec decRec' gT gRec,
    doLevel_decode_invariant levelArgs transport decE decE' gE⟩
  · unfold doDefine
    split
    · rfl
    · cases ho : openFile dfl.dtick with
      | error e => rfl
      | ok contents =>
        simp only []
        cases h : transport (defineReq dfl contents) with
        | error e => rfl
        | ok body => simp only [gE]
  · unfold doEnable
    split
    · rfl
    · exact doEnableLoop_decode_invariant transport decE decE' gE enableNames
  · unfold doDisable
    split
    · rfl
    · exact doDisableLoop_decode_invariant transport decE decE' gE disableNames

/-- Witness for C4 at a concrete input: a body that is not JSON, a decoder
that always fails, and a decoder that always yields the zero envelope give
the same run of every request-issuing handler. -/
theorem C4_decode_failure_behaves_as_empty_success_witness :
    doRecord {} "stream" (fun _ => Except.ok "not json") (fun _ => none) =
      doRecord {} "stream" (fun _ => Except.ok "not json") (fun _ => some {}) ∧
    doDefine { dname := "t", dtick := "f.tick" } (fun _ => Except.ok "script")
        (fun _ => Except.ok "not json") (fun _ => none) =
      doDefine { dname := "t", dtick := "f.tick" } (fun _ => Except.ok "script")
        (fun _ => Except.ok "not json") (fun _ => some {}) ∧
    doReplay {} (fun _ => Except.ok "not json") (fun _ => none) =
      doReplay {} (fun _ => Except.ok "not json") (fun _ => some {}) ∧
    doEnable ["a"] (fun _ => Except.ok "not json") (fun _ => none) =
      doEnable ["a"] (fun _ => Except.ok "not json") (fun _ => some {}) ∧
    doDisable ["a"] (fun _ => Except.ok "not json") (fun _ => none) =
      doDisable ["a"] (fun _ => Except.ok "not json") (fun _ => some {}) ∧
    doDelete ["task", "a"] (fun _ => Except.ok "not json") (fun _ => none) =
      doDelete ["task", "a"] (fun _ => Except.ok "not json") (fun _ => some {}) ∧
    doList ["tasks"] (fun _ => Except.ok "not json") (fun _ => none) (fun _ => none) =
      doList ["tasks"] (fun _ => Except.ok "not json") (fun _ => some {})
        (fun _ => some {}) ∧
    doLevel ["debug"] (fun _ => Except.ok "not json") (fun _ => none) =
      doLevel ["debug"] (fun _ => Except.ok "not json") (fun _ => some {}) :=
  C4_decode_failure_behaves_as_empty_success {} "stream"
    { dname := "t", dtick := "f.tick" } {} ["a"] ["a"] ["task", "a"] ["tasks"]
    ["debug"] (fun _ => Except.ok "script") (fun _ => Except.ok "not json")
    _ _ _ _ _ _ _ _
    (fun _ => Or.inl ⟨rfl, rfl⟩) (fun _ => Or.inl ⟨rfl, rfl⟩)
    (fun _ => Or.inl ⟨rfl, rfl⟩) (fun _ => Or.inl ⟨rfl, rfl⟩)

/-- C5: when `enable a b c` gets a success envelope for the first name and
an envelope with a non-empty error for the second, the handler issues
exactly the requests for `a` and `b`, in that order, never requests `c`,
and fails with the second response's error. -/
theorem C5_enable_stops_after_second_failure (a b c ba bb e : String)
    (transport : Request → Except String String) (dec : String → Option ErrResp)
    (ha : transport (enableReq a) = Except.ok ba)
    (hda : dec ba = some {})
    (hb : transport (enableReq b) = Except.ok bb)
    (hdb : dec bb = some { error := e })
    (he : e ≠ "") :
    doEnable [a, b, c] transport dec =
      { outcome := .fail e, requests := [enableReq a, enableReq b], stdout := "" } := by
  simp [doEnable, doEnableLoop, ha, hda, hb, hdb, he]

/-- Witness for C5 at a concrete input: a mock service that fails the
second name with `boom`. -/
theorem C5_enable_stops_after_second_failure_witness :
    doEnable ["a", "b", "c"]
        (fun r => if r = enableReq "b" then Except.ok "B" else Except.ok "A")
        (fun s => if s = "B" then some { error := "boom" } else some {}) =
      { outcome := .fail "boom", requests := [enableReq "a", enableReq "b"], stdout := "" } :=
  C5_enable_stops_after_second_failure "a" "b" "c" "A" "B" "boom" _ _
    (by rfl) (by decide) (by rfl) (by decide) (by decide)

/-- C6: every `record batch` invocation issues one request whose query
parameters are exactly `type=batch`, `name`, `start`, `num` and `addr`,
with the values of the supplied flags (`num` in decimal), and nothing
else. -/
theorem C6_record_batch_params_exact (fl : RecordFlags)
    (transport : Request → Except String String) (dec : String → Option RecordResp) :
    (doRecord fl "batch" transport dec).requests.map Request.params =
      [[("type", "batch"), ("name", fl.rname), ("start", fl.rstart),
        ("num", formatInt fl.rnum), ("addr", fl.raddr)]] := by
  have hv : recordValues fl "batch" = some [("type", "batch"), ("name", fl.rname),
      ("start", fl.rstart), ("num", formatInt fl.rnum), ("addr", fl.raddr)] := rfl
  simp only [doRecord, hv]
  cases h : transport (recordReq [("type", "batch"), ("name", fl.rname),
      ("start", fl.rstart), ("num", formatInt fl.rnum), ("addr", fl.raddr)]) with
  | error e => simp [recordReq]
  | ok body =>
    simp only []
    split <;> simp [recordReq]

/-- C7: a successful `record` run writes exactly the returned recording
identifier followed by a newline to standard output, and nothing else. -/
theorem C7_record_success_prints_exactly_id (fl : RecordFlags) (mode : String)
    (v : List (String × String)) (body : String) (rp : RecordResp)
    (transport : Request → Except String String) (dec : String → Option RecordResp)
    (hv : recordValues fl mode = some v)
    (ht : transport (recordReq v) = Except.ok body)
    (hd : (dec body).getD {} = rp)
    (he : rp.error = "") :
    doRecord fl mode transport dec =
      { outcome := .ok, requests := [recordReq v], stdout := rp.recordingID ++ "\n" } := by
  simp only [doRecord, hv, ht, hd]
  simp [he]

/-- Witness for C7 at a concrete input: a recording run whose envelope
carries the identifier `rid123`. -/
theorem C7_record_success_prints_exactly_id_witness :
    doRecord {} "stream" (fun _ => Except.ok "X")
        (fun _ => some { recordingID := "rid123" }) =
      { outcome := .ok, requests := [recordReq [("type", "stream"), ("duration", "5m0s")]],
        stdout := "rid123" ++ "\n" } :=
  C7_record_success_prints_exactly_id {} "stream"
    [("type", "stream"), ("duration", "5m0s")] "X"
    { recordingID := "rid123" } _ _ rfl rfl rfl rfl

/-- C8: every successful `list tasks` or `list recordings` run writes the
header line first, followed by the data rows; when the returned collection
is empty the output is exactly the header line. -/
theorem C8_list_header_always_printed
    (restT restR : List String) (bodyT bodyR : String)
    (rpT : TasksResp) (rpR : RecordingsResp)
    (transport : Request → Except String String)
    (decT : String → Option TasksResp) (decR : String → Option RecordingsResp)
    (htT : transport (tasksReq restT) = Except.ok bodyT)
    (hdT : (decT bodyT).getD {} = rpT)
    (heT : rpT.error = "")
    (htR : transport (recordingsReq restR) = Except.ok bodyR)
    (hdR : (decR bodyR).getD {} = rpR)
    (heR : rpR.error = "") :
    ((doList ("tasks" :: restT) transport decT decR).stdout
        = tasksHeader ++ String.join (rpT.tasks.map taskRow)
      ∧ (rpT.tasks = [] →
          (doList ("tasks" :: restT) transport decT decR).stdout = tasksHeader))
    ∧ ((doList ("recordings" :: restR) transport decT decR).stdout
        = recordingsHeader ++ String.join (rpR.recordings.map recordingRow)
      ∧ (rpR.recordings = [] →
          (doList ("recordings" :: restR) transport decT decR).stdout
            = recordingsHeader)) := by
  have h1 : (doList ("tasks" :: restT) transport decT decR).stdout
      = tasksHeader ++ String.join (rpT.tasks.map taskRow) := by
    simp [doList, htT, hdT, heT]
  have h2 : (doList ("recordings" :: restR) transport decT decR).stdout
      = recordingsHeader ++ String.join (rpR.recordings.map recordingRow) := by
    simp [doList, htR, hdR, heR]
  refine ⟨⟨h1, fun he => ?_⟩, ⟨h2, fun he => ?_⟩⟩
  · rw [h1, he]
    simp [String.join]
  · rw [h2, he]
    simp [String.join]

/-- Witness for C8 at a concrete input: both collections come back empty
and each branch prints exactly its header line. -/
theorem C8_list_header_always_printed_witness :
    ((doList ["tasks"] (fun _ => Except.ok "") (fun _ => some {}) (fun _ => some {})).stdout
        = tasksHeader ++ String.join (([] : List TaskInfo).map taskRow)
      ∧ (([] : List TaskInfo) = [] →
          (doList ["tasks"] (fun _ => Except.ok "") (fun _ => some {})
            (fun _ => some {})).stdout = tasksHeader))
    ∧ ((doList ["recordings"] (fun _ => Except.ok "") (fun _ => some {})
          (fun _ => some {})).stdout
        = recordingsHeader ++ String.join (([] : List RecordingInfo).map recordingRow)
      ∧ (([] : List RecordingInfo) = [] →
          (doList ["recordings"] (fun _ => Except.ok "") (fun _ => some {})
            (fun _ => some {})).stdout = recordingsHeader)) :=
  C8_list_header_always_printed [] [] "" "" {} {} _ _ _ rfl rfl rfl rfl rfl rfl

/-- C9: `list` with a first argument that is neither `tasks` nor
`recordings` returns success, issues no request and prints nothing. -/
theorem C9_list_unknown_kind_silent_success (kind : String) (rest : List String)
    (transport : Request → Except String String)
    (decT : String → Option TasksResp) (decR : String → Option RecordingsResp)
    (h1 : kind ≠ "tasks") (h2 : kind ≠ "recordings") :
    doList (kind :: rest) transport decT decR =
      { outcome := .ok, requests := [], stdout := "" } := by
  simp [doList, h1, h2]

/-- Witness for C9 at a concrete input: `list foo` succeeds silently. -/
theorem C9_list_unknown_kind_silent_success_witness :
    doList ["foo"] (fun _ => Except.ok "") (fun _ => none) (fun _ => none) =
      { outcome := .ok, requests := [], stdout := "" } :=
  C9_list_unknown_kind_silent_success "foo" [] _ _ _ (by decide) (by decide)

/-- C10: `delete` with at least two arguments and an unknown kind reports
no usage error: with every request answered successfully it issues one
DELETE per identifier, each built with an empty base URL and an empty
query-parameter name. -/
theorem C10_delete_unknown_kind_proceeds_empty (kind : String) (ids : List String)
    (transport : Request → Except String String) (dec : String → Option ErrResp)
    (h1 : kind ≠ "task") (h2 : kind ≠ "recording") (h3 : ids ≠ [])
    (htr : ∀ req, transport req = Except.ok "")
    (hdec : dec "" = none) :
    doDelete (kind :: ids) transport dec =
      { outcome := .ok, requests := ids.map (deleteReq "" ""), stdout := "" } := by
  have hloop : ∀ l : List String, doDeleteLoop "" "" transport dec l =
      { outcome := .ok, requests := l.map (deleteReq "" ""), stdout := "" } := by
    intro l
    induction l with
    | nil => rfl
    | cons x xs ih => simp [doDeleteLoop, htr, hdec, ih]
  have hlen : ¬((kind :: ids).length < 2) := by
    have : 0 < ids.length := List.length_pos.mpr h3
    simp only [List.length_cons]
    omega
  simp [doDelete, hlen, h1, h2, hloop]
  have hpos := List.length_pos.mpr h3
  omega

/-- Witness for C10 at a concrete input: `delete foo a b` issues two DELETE
requests whose URLs are just the encoded pairs `=a` and `=b`. -/
theorem C10_delete_unknown_kind_proceeds_empty_witness :
    doDelete ["foo", "a", "b"] (fun _ => Except.ok "") (fun _ => none) =
      { outcome := .ok, requests := [deleteReq "" "" "a", deleteReq "" "" "b"],
        stdout := "" } :=
  C10_delete_unknown_kind_proceeds_empty "foo" ["a", "b"] _ _
    (by decide) (by decide) (by decide) (fun _ => rfl) rfl
